import Mathlib

/-!
Verification of the GPflow expectations dispatch-and-fallback core
(`gpflow/expectations/expectations.py`) and its mean-function formula
library (`gpflow/expectations/mean_functions.py`).

Layer 1 embeds the facade functions `expectation`, `quadrature_expectation`
and `_init_expectation` over opaque array and operand types, with the
dispatcher registries modelled from the spec (the `.dispatch` module is not
part of the sources).  Side effects (the `print` statement and
`logger.debug`) are tracked explicitly as an effect trace.

Layer 2 embeds the registered analytical formulas of `mean_functions.py`
over concrete rational tensors indexed by `Fin`, with mean-function
application modelled from the spec (the `mean_functions` class module is
not part of the sources).
-/

namespace GPflow

/-- Python exceptions that the embedded code can raise.
`notImplemented` is `NotImplementedError` (the dispatcher's NotFound
signal), `valueError` is the `ValueError` raised by unpacking a tuple of
arity other than 2, `indexError` is the `IndexError` raised by an
out-of-range Python list index. -/
inductive PyErr where
  | notImplemented
  | valueError
  | indexError
  deriving DecidableEq, Repr

/-- The three canonical distribution variants of
`gpflow.probability_distributions`; each stores the raw arrays it was
constructed from (the classes themselves are external collaborators, used
here only as tagged containers, exactly as `_init_expectation` uses them). -/
inductive Dist (Arr : Type) where
  | diagonalGaussian (mu cov : Arr)
  | gaussian (mu cov : Arr)
  | markovGaussian (mu cov : Arr)
  deriving DecidableEq

/-- The runtime type of a distribution value, as `type(p)` sees it. -/
inductive DistTag where
  | diagonalGaussianT
  | gaussianT
  | markovGaussianT
  deriving DecidableEq, Repr

/-- `type(p)` for a canonical distribution. -/
def Dist.tag {Arr : Type} : Dist Arr → DistTag
  | .diagonalGaussian _ _ => .diagonalGaussianT
  | .gaussian _ _ => .gaussianT
  | .markovGaussian _ _ => .markovGaussianT

/-- The `p` argument of `expectation` / `quadrature_expectation`: either an
already-canonical distribution, or a raw Python 2-tuple `(mu, cov)`. -/
inductive PIn (Arr : Type) where
  | dist (d : Dist Arr)
  | raw (mu cov : Arr)
  deriving DecidableEq

/-- An `obj1` / `obj2` argument: either a non-tuple Python value (where
`Option.none` models Python's `None`, the default for `obj2`), or a Python
tuple of arbitrary arity whose elements are such values. -/
inductive ObjIn (X : Type) where
  | atom (a : Option X)
  | tup (l : List (Option X))
  deriving DecidableEq

/-- Python list indexing: a negative index counts from the end of the
list; an index out of range in either direction raises `IndexError`,
modelled as `none`. -/
def pyGet {α : Type} (l : List α) (i : Int) : Option α :=
  if 0 ≤ i then l.get? i.toNat
  else if 0 ≤ (l.length : Int) + i then l.get? ((l.length : Int) + i).toNat
  else none

/-- The list `classes = [DiagonalGaussian, Gaussian, MarkovGaussian]` of
`_init_expectation` (expectations.py line 90). -/
def classes (Arr : Type) : List (Arr → Arr → Dist Arr) :=
  [Dist.diagonalGaussian, Dist.gaussian, Dist.markovGaussian]

/-- The distribution-normalizing half of `_init_expectation`
(expectations.py lines 88-91): a raw pair `(mu, cov)` is turned into
`classes[cov.ndim - 2](*p)` under Python list-index semantics; a canonical
distribution passes through unchanged.  `ndim` is the external array
library's rank attribute. -/
def initDistribution {Arr : Type} (ndim : Arr → ℕ) : PIn Arr → Except PyErr (Dist Arr)
  | .dist d => .ok d
  | .raw mu cov =>
      match pyGet (classes Arr) ((ndim cov : Int) - 2) with
      | some cls => .ok (cls mu cov)
      | none => .error .indexError

/-- The operand-normalizing half of `_init_expectation` (expectations.py
lines 93-94): `obj, feat = obj if isinstance(obj, tuple) else (obj, None)`.
Unpacking a tuple whose arity is not 2 raises `ValueError`. -/
def initObj {X : Type} : ObjIn X → Except PyErr (Option X × Option X)
  | .atom a => .ok (a, none)
  | .tup l =>
      match l with
      | [a, b] => .ok (a, b)
      | _ => .error .valueError

/-- `_init_expectation(p, obj1, obj2)` (expectations.py lines 87-95):
normalize the distribution, then `obj1`, then `obj2`; the first failure
propagates. -/
def initExpectation {Arr X : Type} (ndim : Arr → ℕ) (p : PIn Arr)
    (obj1 obj2 : ObjIn X) :
    Except PyErr (Dist Arr × Option X × Option X × Option X × Option X) := do
  let d ← initDistribution ndim p
  let (o1, f1) ← initObj obj1
  let (o2, f2) ← initObj obj2
  return (d, o1, f1, o2, f2)

/-- A concrete 5-part dispatch key: the runtime types
`(type(p), type(obj1), type(feat1), type(obj2), type(feat2))`, where
`Option.none` in a component is Python's `NoneType`. -/
structure Key (Ty : Type) where
  distT : DistTag
  obj1T : Option Ty
  feat1T : Option Ty
  obj2T : Option Ty
  feat2T : Option Ty
  deriving DecidableEq

/-- Form the concrete key of a normalized call, given the runtime-type
function `tyOf` of the opaque operand universe. -/
def mkKey {Arr X Ty : Type} (tyOf : X → Ty) (d : Dist Arr)
    (o1 f1 o2 f2 : Option X) : Key Ty :=
  ⟨d.tag, o1.map tyOf, f1.map tyOf, o2.map tyOf, f2.map tyOf⟩

/-- An implementation held by a registry: a function of the five
normalized arguments and the `nghp` hint, returning an array or raising a
Python error (possibly `NotImplementedError`, even mid-execution). -/
def Impl (Arr X : Type) : Type :=
  Dist Arr → Option X → Option X → Option X → Option X → Option ℕ →
    Except PyErr Arr

/-- Modelled from the spec: a dispatcher registry of the `.dispatch`
module (not part of the sources) — a mapping from concrete 5-part keys to
registered implementations; `none` is the spec's NotFound outcome. -/
def Registry (Arr X Ty : Type) : Type := Key Ty → Option (Impl Arr X)

/-- Modelled from the spec: `dispatcher.registered_fn(...)` resolves a
concrete key and raises `NotImplementedError` when no registered pattern
matches (the NotFound signal the facade catches). -/
def registeredFn {Arr X Ty : Type} (reg : Registry Arr X Ty) (k : Key Ty) :
    Except PyErr (Impl Arr X) :=
  match reg k with
  | some fn => .ok fn
  | none => .error .notImplemented

/-- Observable side effects of the facades: the bare `print(...)` call in
`quadrature_expectation` (expectations.py line 80) and the
`logger.debug(error)` diagnostic call on the fallback path of
`expectation` (line 62). -/
inductive Effect where
  | printStdout
  | logDebug
  deriving DecidableEq, Repr

/-- `expectation(p, obj1, obj2, nghp)` (expectations.py lines 56-65), with
its effect trace.  Normalization runs outside the `try` block, so its
errors propagate; the `try` block catches `NotImplementedError` raised by
either the dispatch-registry lookup or the selected implementation itself,
logs it, and re-resolves the same concrete key against the quadrature
registry; any other error propagates. -/
def expectationT {Arr X Ty : Type} (tyOf : X → Ty) (ndim : Arr → ℕ)
    (disp quad : Registry Arr X Ty) (p : PIn Arr) (obj1 obj2 : ObjIn X)
    (nghp : Option ℕ) : List Effect × Except PyErr Arr :=
  match initExpectation ndim p obj1 obj2 with
  | .error e => ([], .error e)
  | .ok (d, o1, f1, o2, f2) =>
      let k := mkKey tyOf d o1 f1 o2 f2
      match registeredFn disp k >>= fun fn => fn d o1 f1 o2 f2 nghp with
      | .ok v => ([], .ok v)
      | .error .notImplemented =>
          ([.logDebug],
            registeredFn quad k >>= fun fn => fn d o1 f1 o2 f2 nghp)
      | .error e => ([], .error e)

/-- `quadrature_expectation(p, obj1, obj2, nghp)` (expectations.py lines
68-84), with its effect trace: it first executes the bare `print(...)`
statement on line 80, then normalizes and resolves the concrete key
directly against the quadrature registry only. -/
def quadratureExpectationT {Arr X Ty : Type} (tyOf : X → Ty)
    (ndim : Arr → ℕ) (quad : Registry Arr X Ty) (p : PIn Arr)
    (obj1 obj2 : ObjIn X) (nghp : Option ℕ) :
    List Effect × Except PyErr Arr :=
  ([.printStdout],
    match initExpectation ndim p obj1 obj2 with
    | .error e => .error e
    | .ok (d, o1, f1, o2, f2) =>
        registeredFn quad (mkKey tyOf d o1 f1 o2 f2) >>= fun fn =>
          fn d o1 f1 o2 f2 nghp)

/-- The value (return value or raised error) of `expectation`. -/
def expectation {Arr X Ty : Type} (tyOf : X → Ty) (ndim : Arr → ℕ)
    (disp quad : Registry Arr X Ty) (p : PIn Arr) (obj1 obj2 : ObjIn X)
    (nghp : Option ℕ) : Except PyErr Arr :=
  (expectationT tyOf ndim disp quad p obj1 obj2 nghp).2

/-- The value (return value or raised error) of `quadrature_expectation`. -/
def quadratureExpectation {Arr X Ty : Type} (tyOf : X → Ty)
    (ndim : Arr → ℕ) (quad : Registry Arr X Ty) (p : PIn Arr)
    (obj1 obj2 : ObjIn X) (nghp : Option ℕ) : Except PyErr Arr :=
  (quadratureExpectationT tyOf ndim quad p obj1 obj2 nghp).2

/-- The concrete 5-part key a call produces, when normalization succeeds. -/
def concreteKey {Arr X Ty : Type} (tyOf : X → Ty) (ndim : Arr → ℕ)
    (p : PIn Arr) (obj1 obj2 : ObjIn X) : Option (Key Ty) :=
  match initExpectation ndim p obj1 obj2 with
  | .ok (d, o1, f1, o2, f2) => some (mkKey tyOf d o1 f1 o2 f2)
  | .error _ => none

/-!
Layer 2: the analytical formulas of `mean_functions.py` over concrete
rational tensors.  A tensor axis is indexed by `Fin`; `N` is the sample
count, `D` the input dimension, `Q`/`Q1`/`Q2` output dimensions.
-/

/-- A Full-variant distribution (`Gaussian`), the variant all formulas in
`mean_functions.py` are registered for: `mu` is N×D, `cov` is N×D×D.
Scalars range over an arbitrary commutative ring `R` (the source's
floating-point tensors are modelled by exact ring arithmetic). -/
structure Gaussian (R : Type) (N D : ℕ) where
  mu : Fin N → Fin D → R
  cov : Fin N → Fin D → Fin D → R

/-- Modelled from the spec: the mean-function operand kinds relevant to
the registered formulas (`gpflow.mean_functions` is not part of the
sources).  A `constant c` mean function returns the row `c` for every
sample; a `linear A b` mean function maps `X` to `X·A + b`. -/
inductive MeanFunction (R : Type) (D : ℕ) : ℕ → Type where
  | constant {Q : ℕ} (c : Fin Q → R) : MeanFunction R D Q
  | linear {Q : ℕ} (A : Fin D → Fin Q → R) (b : Fin Q → R) : MeanFunction R D Q

/-- Modelled from the spec: applying a mean function to an N×D array,
giving an N×Q array (`mean(p.mu)` in the source formulas). -/
def meanApply {R : Type} [CommRing R] {N D Q : ℕ} :
    MeanFunction R D Q → (Fin N → Fin D → R) → Fin N → Fin Q → R
  | .constant c, _ => fun _ q => c q
  | .linear A b, X => fun n q => (∑ i, X n i * A i q) + b q

/-- `p.cov + (p.mu[:, :, None] * p.mu[:, None, :])`, the per-sample
second moment `E[x xᵗ]` appearing in mean_functions.py lines 74, 88, 106
and 122. -/
def eXXT {R : Type} [CommRing R] {N D : ℕ} (p : Gaussian R N D) :
    Fin N → Fin D → Fin D → R :=
  fun n i j => p.cov n i j + p.mu n i * p.mu n j

/-- The Identity×Identity formula (mean_functions.py lines 65-74):
`return p.cov + (p.mu[:, :, None] * p.mu[:, None, :])`, an N×D×D array. -/
def eIdId {R : Type} [CommRing R] {N D : ℕ} (p : Gaussian R N D) :
    Fin N → Fin D → Fin D → R :=
  fun n i j => p.cov n i j + p.mu n i * p.mu n j

/-- The Constant×Constant formula (mean_functions.py lines 25-34):
`return mean1(p.mu)[:, :, None] * mean2(p.mu)[:, None, :]`. -/
def eConstConst {R : Type} [CommRing R] {N D Q1 Q2 : ℕ} (p : Gaussian R N D)
    (c1 : Fin Q1 → R) (c2 : Fin Q2 → R) : Fin N → Fin Q1 → Fin Q2 → R :=
  fun n q1 q2 =>
    meanApply (.constant c1) p.mu n q1 * meanApply (.constant c2) p.mu n q2

/-- The Expectation Facade call `expectation(p, mean)` for a bare
mean-function operand: dispatch resolves the key
`(Gaussian, Linear/Constant, NoneType, NoneType, NoneType)` to the
single-operand formula of mean_functions.py lines 12-22, which returns
`mean(p.mu)`. -/
def expectationMF {R : Type} [CommRing R] {N D Q : ℕ} (p : Gaussian R N D)
    (m : MeanFunction R D Q) : Fin N → Fin Q → R :=
  meanApply m p.mu

/-- The Constant×General formula (mean_functions.py lines 37-48):
`e_mean2 = expectation(p, mean2)` — a recursive facade call — followed by
`return mean1(p.mu)[:, :, None] * e_mean2[:, None, :]`. -/
def eConstGeneral {R : Type} [CommRing R] {N D Q1 Q2 : ℕ} (p : Gaussian R N D)
    (c1 : Fin Q1 → R) (m2 : MeanFunction R D Q2) :
    Fin N → Fin Q1 → Fin Q2 → R :=
  fun n q1 q2 => meanApply (.constant c1) p.mu n q1 * expectationMF p m2 n q2

/-- The General×Constant formula (mean_functions.py lines 51-62):
`e_mean1 = expectation(p, mean1)` followed by
`return e_mean1[:, :, None] * mean2(p.mu)[:, None, :]`. -/
def eGeneralConst {R : Type} [CommRing R] {N D Q1 Q2 : ℕ} (p : Gaussian R N D)
    (m1 : MeanFunction R D Q1) (c2 : Fin Q2 → R) :
    Fin N → Fin Q1 → Fin Q2 → R :=
  fun n q1 q2 => expectationMF p m1 n q1 * meanApply (.constant c2) p.mu n q2

/-- The Linear×Linear formula (mean_functions.py lines 113-128): with
`e_xxt = p.cov + mu muᵗ`, the four einsum terms
`A1ᵗ·e_xxt·A2 + A1ᵗ·mu·b2ᵗ + b1·muᵗ·A2 + b1 b2ᵗ`, an N×Q1×Q2 array. -/
def eLinLin {R : Type} [CommRing R] {N D Q1 Q2 : ℕ} (p : Gaussian R N D)
    (A1 : Fin D → Fin Q1 → R) (b1 : Fin Q1 → R) (A2 : Fin D → Fin Q2 → R)
    (b2 : Fin Q2 → R) : Fin N → Fin Q1 → Fin Q2 → R :=
  fun n q z =>
    (∑ i, ∑ j, A1 i q * eXXT p n i j * A2 j z)
      + (∑ i, A1 i q * p.mu n i * b2 z)
      + (∑ i, b1 q * p.mu n i * A2 i z)
      + b1 q * b2 z

/-- The end-to-end example distribution: N = 1, D = 2, `mean = [1, 2]`,
`covariance` the 2×2 identity. -/
def examplePD : Gaussian ℤ 1 2 where
  mu := fun _ => ![1, 2]
  cov := fun _ => ![![1, 0], ![0, 1]]

/-- A second concrete distribution, N = 1, D = 1, used as a witness input. -/
def exampleP1 : Gaussian ℤ 1 1 where
  mu := fun _ _ => 2
  cov := fun _ _ _ => 3

/-- A dispatch registry with no entries (every lookup is a NotFound). -/
def emptyDisp : Registry ℕ ℕ ℕ := fun _ => none

/-- A quadrature registry whose single generic implementation returns 42. -/
def constQuad : Registry ℕ ℕ ℕ := fun _ => some fun _ _ _ _ _ _ => .ok 42

/-- A dispatch registry whose implementations all raise
`NotImplementedError` mid-execution. -/
def raisingDisp : Registry ℕ ℕ ℕ :=
  fun _ => some fun _ _ _ _ _ _ => .error .notImplemented

/-!
Theorems.
-/

/-- Helper: binding an `Except.ok` applies the continuation. -/
theorem exceptBind_ok {ε α β : Type} (a : α) (f : α → Except ε β) :
    (Except.ok a : Except ε α) >>= f = f a := rfl

/-- Helper: binding an `Except.error` propagates the error. -/
theorem exceptBind_error {ε α β : Type} (e : ε) (f : α → Except ε β) :
    (Except.error e : Except ε α) >>= f = Except.error e := rfl

/-- Helper: two `p` inputs that normalize to the same distribution give
the same `expectation` value for any operands and registries. -/
theorem expectation_congr_dist {Arr X Ty : Type} (tyOf : X → Ty)
    (ndim : Arr → ℕ) (disp quad : Registry Arr X Ty) {p q : PIn Arr}
    (hpd : initDistribution ndim p = initDistribution ndim q)
    (obj1 obj2 : ObjIn X) (nghp : Option ℕ) :
    expectation tyOf ndim disp quad p obj1 obj2 nghp
      = expectation tyOf ndim disp quad q obj1 obj2 nghp := by
  unfold expectation expectationT initExpectation
  rw [hpd]

/-- C1: for every call whose concrete 5-part key has no match in the
Dispatch Registry, `expectation(p, obj1, obj2, nghp)` returns exactly the
value (or raises exactly the error) that
`quadrature_expectation(p, obj1, obj2, nghp)` would return for the same
inputs; the fallback is invisible in the return value and error channel. -/
theorem expectation_miss_eq_quadrature {Arr X Ty : Type} (tyOf : X → Ty)
    (ndim : Arr → ℕ) (disp quad : Registry Arr X Ty) (p : PIn Arr)
    (obj1 obj2 : ObjIn X) (nghp : Option ℕ)
    (hmiss : ∀ k, concreteKey tyOf ndim p obj1 obj2 = some k → disp k = none) :
    expectation tyOf ndim disp quad p obj1 obj2 nghp
      = quadratureExpectation tyOf ndim quad p obj1 obj2 nghp := by
  unfold expectation quadratureExpectation expectationT quadratureExpectationT
  cases h : initExpectation ndim p obj1 obj2 with
  | error e => simp
  | ok t =>
      obtain ⟨d, o1, f1, o2, f2⟩ := t
      have hk : disp (mkKey tyOf d o1 f1 o2 f2) = none := by
        apply hmiss
        unfold concreteKey
        rw [h]
      have hr : registeredFn disp (mkKey tyOf d o1 f1 o2 f2)
          = .error .notImplemented := by
        unfold registeredFn
        rw [hk]
      simp only [hr]
      rfl

/-- C1 witness: a concrete call with an empty dispatch registry. -/
theorem expectation_miss_eq_quadrature_witness :
    (∀ k, concreteKey (fun t : ℕ => t) (fun a : ℕ => a)
        (.dist (.gaussian 0 0)) (.atom none) (.atom none) = some k →
        emptyDisp k = none) ∧
    expectation (fun t : ℕ => t) (fun a : ℕ => a) emptyDisp constQuad
        (.dist (.gaussian 0 0)) (.atom none) (.atom none) none
      = quadratureExpectation (fun t : ℕ => t) (fun a : ℕ => a) constQuad
        (.dist (.gaussian 0 0)) (.atom none) (.atom none) none :=
  ⟨fun _ _ => rfl,
    expectation_miss_eq_quadrature _ _ _ _ _ _ _ _ (fun _ _ => rfl)⟩

/-- C9: the quadrature fallback of `expectation` is triggered both when
the dispatch-registry lookup misses and when the selected analytical
implementation itself raises `NotImplementedError` during execution; in
both cases the quadrature registry is consulted with the same concrete
5-part key (and the call returns what `quadrature_expectation` would). -/
theorem expectation_fallback_on_raise {Arr X Ty : Type} (tyOf : X → Ty)
    (ndim : Arr → ℕ) (disp quad : Registry Arr X Ty) (p : PIn Arr)
    (obj1 obj2 : ObjIn X) (nghp : Option ℕ) (d : Dist Arr)
    (o1 f1 o2 f2 : Option X)
    (hinit : initExpectation ndim p obj1 obj2 = .ok (d, o1, f1, o2, f2))
    (hcase : disp (mkKey tyOf d o1 f1 o2 f2) = none ∨
      ∃ fn, disp (mkKey tyOf d o1 f1 o2 f2) = some fn ∧
        fn d o1 f1 o2 f2 nghp = .error .notImplemented) :
    expectation tyOf ndim disp quad p obj1 obj2 nghp
        = (registeredFn quad (mkKey tyOf d o1 f1 o2 f2) >>= fun fn =>
            fn d o1 f1 o2 f2 nghp)
      ∧ expectation tyOf ndim disp quad p obj1 obj2 nghp
        = quadratureExpectation tyOf ndim quad p obj1 obj2 nghp := by
  have key : expectation tyOf ndim disp quad p obj1 obj2 nghp
      = (registeredFn quad (mkKey tyOf d o1 f1 o2 f2) >>= fun fn =>
          fn d o1 f1 o2 f2 nghp) := by
    unfold expectation expectationT
    rcases hcase with hk | ⟨fn, hfn, hraise⟩
    · have hr : registeredFn disp (mkKey tyOf d o1 f1 o2 f2)
          = .error .notImplemented := by
        unfold registeredFn
        rw [hk]
      simp only [hinit, hr]
      rfl
    · have hr : registeredFn disp (mkKey tyOf d o1 f1 o2 f2) = .ok fn := by
        unfold registeredFn
        rw [hfn]
      simp only [hinit, hr, exceptBind_ok, hraise]
  have keyq : quadratureExpectation tyOf ndim quad p obj1 obj2 nghp
      = (registeredFn quad (mkKey tyOf d o1 f1 o2 f2) >>= fun fn =>
          fn d o1 f1 o2 f2 nghp) := by
    unfold quadratureExpectation quadratureExpectationT
    simp only [hinit]
  exact ⟨key, key.trans keyq.symm⟩

/-- C9 witness: a dispatch registry whose selected implementation raises
`NotImplementedError` mid-execution, at a concrete call. -/
theorem expectation_fallback_on_raise_witness :
    initExpectation (fun a : ℕ => a) (PIn.dist (Dist.gaussian 0 0))
        (ObjIn.atom (none : Option ℕ)) (ObjIn.atom none)
      = .ok (Dist.gaussian 0 0, none, none, none, none) ∧
    (raisingDisp (mkKey (fun t : ℕ => t) (Dist.gaussian 0 0)
          none none none none) = none ∨
      ∃ fn, raisingDisp (mkKey (fun t : ℕ => t) (Dist.gaussian 0 0)
          none none none none) = some fn ∧
        fn (Dist.gaussian 0 0) none none none none none
          = .error .notImplemented) ∧
    expectation (fun t : ℕ => t) (fun a : ℕ => a) raisingDisp constQuad
        (.dist (.gaussian 0 0)) (.atom none) (.atom none) none
      = quadratureExpectation (fun t : ℕ => t) (fun a : ℕ => a) constQuad
        (.dist (.gaussian 0 0)) (.atom none) (.atom none) none :=
  ⟨rfl, Or.inr ⟨_, rfl, rfl⟩,
    (expectation_fallback_on_raise (fun t : ℕ => t) (fun a : ℕ => a)
      raisingDisp constQuad (.dist (.gaussian 0 0)) (.atom none) (.atom none)
      none (.gaussian 0 0) none none none none rfl
      (Or.inr ⟨_, rfl, rfl⟩)).2⟩

/-- C10: a raw `(mean, covariance)` pair whose covariance has rank 3 is
dispatched exactly like the canonical `Gaussian(mean, covariance)`; rank 2
behaves like `DiagonalGaussian`, rank 4 like `MarkovGaussian`, and an
already-canonical distribution is passed through unchanged by the
normalizer. -/
theorem expectation_raw_eq_canonical {Arr X Ty : Type} (tyOf : X → Ty)
    (ndim : Arr → ℕ) (disp quad : Registry Arr X Ty) (mu cov : Arr)
    (obj1 obj2 : ObjIn X) (nghp : Option ℕ) :
    (ndim cov = 3 →
      expectation tyOf ndim disp quad (.raw mu cov) obj1 obj2 nghp
        = expectation tyOf ndim disp quad (.dist (.gaussian mu cov))
            obj1 obj2 nghp) ∧
    (ndim cov = 2 →
      expectation tyOf ndim disp quad (.raw mu cov) obj1 obj2 nghp
        = expectation tyOf ndim disp quad (.dist (.diagonalGaussian mu cov))
            obj1 obj2 nghp) ∧
    (ndim cov = 4 →
      expectation tyOf ndim disp quad (.raw mu cov) obj1 obj2 nghp
        = expectation tyOf ndim disp quad (.dist (.markovGaussian mu cov))
            obj1 obj2 nghp) ∧
    (∀ d : Dist Arr, initDistribution ndim (.dist d) = .ok d) := by
  refine ⟨fun h => ?_, fun h => ?_, fun h => ?_, fun d => rfl⟩ <;>
    refine expectation_congr_dist tyOf ndim disp quad ?_ obj1 obj2 nghp <;>
    · simp only [initDistribution]
      rw [h]
      rfl

/-- C10 witness: concrete rank-3, rank-2 and rank-4 raw pairs. -/
theorem expectation_raw_eq_canonical_witness :
    ((fun a : ℕ => a) 3 = 3) ∧
    expectation (fun t : ℕ => t) (fun a : ℕ => a) emptyDisp constQuad
        (.raw 9 3) (.atom none) (.atom none) none
      = expectation (fun t : ℕ => t) (fun a : ℕ => a) emptyDisp constQuad
        (.dist (.gaussian 9 3)) (.atom none) (.atom none) none ∧
    expectation (fun t : ℕ => t) (fun a : ℕ => a) emptyDisp constQuad
        (.raw 9 2) (.atom none) (.atom none) none
      = expectation (fun t : ℕ => t) (fun a : ℕ => a) emptyDisp constQuad
        (.dist (.diagonalGaussian 9 2)) (.atom none) (.atom none) none ∧
    expectation (fun t : ℕ => t) (fun a : ℕ => a) emptyDisp constQuad
        (.raw 9 4) (.atom none) (.atom none) none
      = expectation (fun t : ℕ => t) (fun a : ℕ => a) emptyDisp constQuad
        (.dist (.markovGaussian 9 4)) (.atom none) (.atom none) none :=
  ⟨rfl,
    (expectation_raw_eq_canonical (fun t : ℕ => t) (fun a : ℕ => a)
      emptyDisp constQuad 9 3 (.atom none) (.atom none) none).1 rfl,
    (expectation_raw_eq_canonical (fun t : ℕ => t) (fun a : ℕ => a)
      emptyDisp constQuad 9 2 (.atom none) (.atom none) none).2.1 rfl,
    (expectation_raw_eq_canonical (fun t : ℕ => t) (fun a : ℕ => a)
      emptyDisp constQuad 9 4 (.atom none) (.atom none) none).2.2.1 rfl⟩

/-- C2 counterexample: a raw pair whose covariance has rank 0 does not
fail with a shape error as the claim requires; Python's negative list
indexing makes `classes[0 - 2]` select `Gaussian`, so the normalizer
silently returns (`Except.ok`) the Full variant. -/
theorem initDistribution_rank0_no_error :
    initDistribution (fun a : ℕ => a) (.raw 5 0)
      = .ok (Dist.gaussian 5 0) := rfl

/-- C2 (amended): the variant constructed from a raw pair is determined by
the covariance rank — 2 gives Independent, 3 Full, 4 Markov; rank 5 and
above fails with an index error; but ranks 0 and 1 do not fail: Python
negative indexing makes rank 0 construct Full (Gaussian) and rank 1
Markov (MarkovGaussian). -/
theorem initDistribution_rank_behavior {Arr : Type} (ndim : Arr → ℕ)
    (mu cov : Arr) :
    (ndim cov = 2 →
      initDistribution ndim (.raw mu cov) = .ok (.diagonalGaussian mu cov)) ∧
    (ndim cov = 3 →
      initDistribution ndim (.raw mu cov) = .ok (.gaussian mu cov)) ∧
    (ndim cov = 4 →
      initDistribution ndim (.raw mu cov) = .ok (.markovGaussian mu cov)) ∧
    (ndim cov = 0 →
      initDistribution ndim (.raw mu cov) = .ok (.gaussian mu cov)) ∧
    (ndim cov = 1 →
      initDistribution ndim (.raw mu cov) = .ok (.markovGaussian mu cov)) ∧
    (5 ≤ ndim cov →
      initDistribution ndim (.raw mu cov) = .error .indexError) := by
  refine ⟨fun h => ?_, fun h => ?_, fun h => ?_, fun h => ?_, fun h => ?_,
    fun h => ?_⟩ <;> simp only [initDistribution]
  · rw [h]
    rfl
  · rw [h]
    rfl
  · rw [h]
    rfl
  · rw [h]
    rfl
  · rw [h]
    rfl
  · have hp : pyGet (classes Arr) ((ndim cov : Int) - 2) = none := by
      unfold pyGet
      rw [if_pos (by omega)]
      apply List.get?_eq_none.mpr
      simp only [classes, List.length]
      omega
    rw [hp]

/-- C2 witness: the amended behavior at concrete ranks 2, 0 and 7. -/
theorem initDistribution_rank_behavior_witness :
    initDistribution (fun a : ℕ => a) (.raw 9 2)
        = .ok (Dist.diagonalGaussian 9 2) ∧
    initDistribution (fun a : ℕ => a) (.raw 9 0) = .ok (Dist.gaussian 9 0) ∧
    initDistribution (fun a : ℕ => a) (.raw 9 7) = .error .indexError :=
  ⟨(initDistribution_rank_behavior (fun a : ℕ => a) 9 2).1 rfl,
    (initDistribution_rank_behavior (fun a : ℕ => a) 9 0).2.2.2.1 rfl,
    (initDistribution_rank_behavior (fun a : ℕ => a) 9 7).2.2.2.2.2
      (by omega)⟩

/-- C7: the operand normalizer returns a bare operand paired with the
absent marker, returns a 2-element pair unchanged, fails on any tuple
whose arity is not 2 (Python's unpacking `ValueError`, the spec's
InvalidOperand), and has no other failure mode. -/
theorem initObj_contract {X : Type} (obj : ObjIn X) :
    (∀ a, obj = .atom a → initObj obj = .ok (a, none)) ∧
    (∀ a b, obj = .tup [a, b] → initObj obj = .ok (a, b)) ∧
    (∀ l, obj = .tup l → l.length ≠ 2 →
      initObj obj = .error .valueError) ∧
    (∀ e, initObj obj = .error e →
      e = .valueError ∧ ∃ l, obj = .tup l ∧ l.length ≠ 2) := by
  refine ⟨?_, ?_, ?_, ?_⟩
  · rintro a rfl
    rfl
  · rintro a b rfl
    rfl
  · rintro l rfl hl
    rcases l with _ | ⟨a, _ | ⟨b, _ | ⟨c, rest⟩⟩⟩
    · rfl
    · rfl
    · exact absurd rfl hl
    · rfl
  · intro e he
    cases obj with
    | atom a => exact Except.noConfusion he
    | tup l =>
        rcases l with _ | ⟨a, _ | ⟨b, _ | ⟨c, rest⟩⟩⟩
        · exact ⟨(Except.error.inj he).symm, [], rfl, by simp⟩
        · exact ⟨(Except.error.inj he).symm, [a], rfl, by simp⟩
        · exact Except.noConfusion he
        · exact ⟨(Except.error.inj he).symm, a :: b :: c :: rest, rfl, by simp⟩

/-- C7 witness: a bare operand, a 2-element pair and a 3-element tuple. -/
theorem initObj_contract_witness :
    initObj (ObjIn.atom (some 7)) = .ok (some 7, (none : Option ℕ)) ∧
    initObj (ObjIn.tup [some 1, some (2 : ℕ)]) = .ok (some 1, some 2) ∧
    initObj (ObjIn.tup [some 1, some 2, some (3 : ℕ)])
      = .error .valueError :=
  ⟨(initObj_contract (ObjIn.atom (some 7))).1 _ rfl,
    (initObj_contract (ObjIn.tup [some 1, some 2])).2.1 _ _ rfl,
    (initObj_contract (ObjIn.tup [some 1, some 2, some 3])).2.2.1 _ rfl
      (by simp)⟩

/-- C8: evaluating `quadrature_expectation` at a concrete call shows its
effect trace contains a bare print to standard output (the `print(...)`
statement on expectations.py line 80), performed unconditionally on every
call — the operation is not pure computation whose only side effect is
diagnostic logging. -/
theorem quadratureExpectation_prints_to_stdout :
    (quadratureExpectationT (fun t : ℕ => t) (fun a : ℕ => a) constQuad
        (.dist (.gaussian 0 0)) (.atom none) (.atom none) none).1
      = [Effect.printStdout] := rfl

/-- C3: the Identity×Identity expectation equals `C + outer(m, m)` per
sample; it is symmetric whenever the covariance is symmetric; and on the
end-to-end example (N = 1, D = 2, mean `[1, 2]`, identity covariance) it
equals `[[2, 2], [2, 5]]`. -/
theorem eIdId_spec {R : Type} [CommRing R] {N D : ℕ} :
    (∀ (p : Gaussian R N D) (n : Fin N) (i j : Fin D),
      eIdId p n i j = p.cov n i j + p.mu n i * p.mu n j) ∧
    (∀ p : Gaussian R N D, (∀ n i j, p.cov n i j = p.cov n j i) →
      ∀ n i j, eIdId p n i j = eIdId p n j i) ∧
    (∀ n i j, eIdId examplePD n i j = ![![![(2 : ℤ), 2], ![2, 5]]] n i j) := by
  refine ⟨fun p n i j => rfl, ?_, by decide⟩
  intro p hsym n i j
  simp only [eIdId]
  rw [hsym n i j]
  ring

/-- C3 witness: symmetry of the example's Identity×Identity expectation
at concrete indices. -/
theorem eIdId_spec_witness :
    (∀ n i j, examplePD.cov n i j = examplePD.cov n j i) ∧
    eIdId examplePD 0 0 1 = eIdId examplePD 0 1 0 :=
  ⟨by decide, eIdId_spec.2.1 examplePD (by decide) 0 0 1⟩

/-- C4: for a Gaussian with symmetric covariance, the Linear×Linear
expectation of `(A1, b1)` against `(A2, b2)`, transposed on its last two
axes, equals the Linear×Linear expectation of `(A2, b2)` against
`(A1, b1)`. -/
theorem eLinLin_transpose {R : Type} [CommRing R] {N D Q1 Q2 : ℕ}
    (p : Gaussian R N D) (A1 : Fin D → Fin Q1 → R) (b1 : Fin Q1 → R)
    (A2 : Fin D → Fin Q2 → R) (b2 : Fin Q2 → R)
    (hsym : ∀ n i j, p.cov n i j = p.cov n j i) :
    ∀ (n : Fin N) (q : Fin Q1) (z : Fin Q2),
      eLinLin p A1 b1 A2 b2 n q z = eLinLin p A2 b2 A1 b1 n z q := by
  intro n q z
  have hx : ∀ i j, eXXT p n i j = eXXT p n j i := by
    intro i j
    simp only [eXXT]
    rw [hsym n i j]
    ring
  simp only [eLinLin]
  have h1 : (∑ i, ∑ j, A1 i q * eXXT p n i j * A2 j z)
      = ∑ i, ∑ j, A2 i z * eXXT p n i j * A1 j q := by
    rw [Finset.sum_comm]
    refine Finset.sum_congr rfl fun i _ => Finset.sum_congr rfl fun j _ => ?_
    rw [hx j i]
    ring
  have h2 : (∑ i, A1 i q * p.mu n i * b2 z)
      = ∑ i, b2 z * p.mu n i * A1 i q :=
    Finset.sum_congr rfl fun i _ => by ring
  have h3 : (∑ i, b1 q * p.mu n i * A2 i z)
      = ∑ i, A2 i z * p.mu n i * b1 q :=
    Finset.sum_congr rfl fun i _ => by ring
  rw [h1, h2, h3]
  ring

/-- C4 witness: transpose consistency at a concrete distribution and
concrete linear mean functions. -/
theorem eLinLin_transpose_witness :
    (∀ n i j, exampleP1.cov n i j = exampleP1.cov n j i) ∧
    eLinLin exampleP1 (fun _ _ => (1 : ℤ) : Fin 1 → Fin 1 → ℤ)
        (fun _ => 1) (fun _ _ => (5 : ℤ) : Fin 1 → Fin 1 → ℤ)
        (fun _ => 7) 0 0 0
      = eLinLin exampleP1 (fun _ _ => (5 : ℤ) : Fin 1 → Fin 1 → ℤ)
        (fun _ => 7) (fun _ _ => (1 : ℤ) : Fin 1 → Fin 1 → ℤ)
        (fun _ => 1) 0 0 0 :=
  ⟨fun _ _ _ => rfl,
    eLinLin_transpose exampleP1 (fun _ _ => (1 : ℤ) : Fin 1 → Fin 1 → ℤ)
      (fun _ => 1) (fun _ _ => (5 : ℤ) : Fin 1 → Fin 1 → ℤ) (fun _ => 7)
      (fun _ _ _ => rfl) 0 0 0⟩

/-- C5: the Constant×Constant expectation depends only on the two
constants — two distributions with the same sample count (even with
different input dimensions, means and covariances) give identical
results, namely the outer product of the constants at every sample. -/
theorem eConstConst_ignores_distribution {R : Type} [CommRing R]
    {N D Dp Q1 Q2 : ℕ} (p : Gaussian R N D) (q : Gaussian R N Dp)
    (c1 : Fin Q1 → R) (c2 : Fin Q2 → R) :
    (∀ (n : Fin N) (i : Fin Q1) (j : Fin Q2),
      eConstConst p c1 c2 n i j = eConstConst q c1 c2 n i j) ∧
    (∀ (n : Fin N) (i : Fin Q1) (j : Fin Q2),
      eConstConst p c1 c2 n i j = c1 i * c2 j) :=
  ⟨fun _ _ _ => rfl, fun _ _ _ => rfl⟩

/-- C6: the Constant×General and General×Constant formulas equal the
per-sample outer product of the constant's value with the value of the
recursive Expectation Facade call on the general mean function. -/
theorem eConstGeneral_outer_of_facade {R : Type} [CommRing R]
    {N D Q1 Q2 : ℕ} (p : Gaussian R N D) (c1 : Fin Q1 → R)
    (m2 : MeanFunction R D Q2) (m1 : MeanFunction R D Q1)
    (c2 : Fin Q2 → R) :
    (∀ (n : Fin N) (i : Fin Q1) (j : Fin Q2),
      eConstGeneral p c1 m2 n i j = c1 i * expectationMF p m2 n j) ∧
    (∀ (n : Fin N) (i : Fin Q1) (j : Fin Q2),
      eGeneralConst p m1 c2 n i j = expectationMF p m1 n i * c2 j) :=
  ⟨fun _ _ _ => rfl, fun _ _ _ => rfl⟩

end GPflow
